import Mathlib

/-!
Verification of the Milne-Eddington spectral synthesis engine
(`inverse_problem/milne_edington/me.py`): a shallow embedding of the
parameter derivation, the radiative-transfer kernel, the filling-factor
blender, the noise model, the `me_model` facade and the two wrapper
classes, together with theorems settling the specification claims.

Conventions of the embedding:
* floating-point values are modelled as elements of an arbitrary
  linearly ordered field (instantiated with `ℚ` for concrete
  evaluations), so every theorem holds in particular over `ℝ`;
* the transcendental functions the code calls (`np.sin`, `np.cos`,
  `np.pi`, `math.sqrt(np.pi)`, `scipy.special.wofz`) are supplied by an
  environment record `Env` and kept abstract — the claims are algebraic
  identities that hold for any interpretation of those functions;
* a parameter batch is a list of rows (`List (List F)`); numpy column
  access that can raise `IndexError` is modelled by the explicit guard
  `me_ok` (a column read succeeds exactly when every row is wide
  enough), and `me_model` returns an `Option`;
* the numpy standard-normal draws consumed by the noise model are an
  explicit argument `draw : ℕ → ℕ → Fin 4 → F` indexed by sample,
  wavelength point and Stokes component.
-/

namespace ME

/-- The external numerical functions used by `me.py`: `np.sin`, `np.cos`,
`np.pi`, `math.sqrt(np.pi)`, and the real and imaginary parts of the
Faddeeva function `scipy.special.wofz (v + a*1j)`. -/
structure Env (F : Type) where
  sin : F → F
  cos : F → F
  pi : F
  sqrtPi : F
  wofzRe : F → F → F
  wofzIm : F → F → F

variable {F : Type} [LinearOrderedField F]

/-- `c = 3e10` (speed of light, cm/s). -/
def c : F := 3 * 10 ^ 10

/-- `mass = 9.1e-28` (electron mass, g). -/
def mass : F := 91 / 10 ^ 29

/-- `el_c = 4.8e-10` (electron charge, esu). -/
def el_c : F := 48 / 10 ^ 11

/-- `absolute_noise_levels = [109, 28, 28, 44]`, one level per Stokes
component I, Q, U, V. -/
def absolute_noise_levels (k : Fin 4) : F :=
  if k.val = 0 then 109 else if k.val = 1 then 28 else if k.val = 2 then 28 else 44

/-- One point of the emergent spectrum: the four Stokes components. -/
structure Stokes (F : Type) where
  I : F
  Q : F
  U : F
  V : F

/-- Indexing the Stokes components in the output order `(I, Q, U, V)`
produced by `np.transpose(np.stack((I, Q, U, V)))`. -/
def Stokes.comp (s : Stokes F) (k : Fin 4) : F :=
  if k.val = 0 then s.I else if k.val = 1 then s.Q else if k.val = 2 then s.U else s.V

/-- The absorption (`k_I, k_Q, k_U, k_V`) and magneto-optical
(`f_Q, f_U, f_V`) coefficients computed in `_comp_numba`. -/
structure Coeffs (F : Type) where
  k_I : F
  k_Q : F
  k_U : F
  k_V : F
  f_Q : F
  f_U : F
  f_V : F

/-- Lines 329-359 of `_comp_numba`: from the six Faddeeva profile
components to the seven transfer coefficients. -/
def me_coeffs (env : Env F) (H1 H2 H3 L1 L2 L3 theta xi etta_0 : F) : Coeffs F :=
  let ka_L := etta_0 * env.sqrtPi
  let etta_p := H1 / env.sqrtPi
  let etta_b := H2 / env.sqrtPi
  let etta_r := H3 / env.sqrtPi
  let rho_p := L1 / env.sqrtPi
  let rho_b := L2 / env.sqrtPi
  let rho_r := L3 / env.sqrtPi
  let sin_theta2 := env.sin theta * env.sin theta
  let cos_theta := env.cos theta
  let sin2xi := env.sin (2 * xi)
  let cos2xi := env.cos (2 * xi)
  let h_I := (1 / 2) * (etta_p * sin_theta2 + (1 / 2) * (etta_b + etta_r) * (1 + cos_theta * cos_theta))
  let h_Q := (1 / 2) * (etta_p - (1 / 2) * (etta_b + etta_r)) * sin_theta2 * cos2xi
  let h_U := (1 / 2) * (etta_p - (1 / 2) * (etta_b + etta_r)) * sin_theta2 * sin2xi
  let h_V := (1 / 2) * (etta_r - etta_b) * cos_theta
  let r_Q := (1 / 2) * (rho_p - (1 / 2) * (rho_b + rho_r)) * sin_theta2 * cos2xi
  let r_U := (1 / 2) * (rho_p - (1 / 2) * (rho_b + rho_r)) * sin_theta2 * sin2xi
  let r_V := (1 / 2) * (rho_r - rho_b) * cos_theta
  { k_I := ka_L * h_I
    k_Q := ka_L * h_Q
    k_U := ka_L * h_U
    k_V := ka_L * h_V
    f_Q := ka_L * r_Q
    f_U := ka_L * r_U
    f_V := ka_L * r_V }

/-- `_comp_numba` (lines 327-385): the closed-form solution of the ME
radiative transfer equation, per sample and wavelength point. -/
def comp_numba (env : Env F) (mu H1 H2 H3 L1 L2 L3 theta xi etta_0 S_0 S_1 : F) : Stokes F :=
  let cf := me_coeffs env H1 H2 H3 L1 L2 L3 theta xi etta_0
  let f_Q2 := cf.f_Q * cf.f_Q
  let f_U2 := cf.f_U * cf.f_U
  let f_V2 := cf.f_V * cf.f_V
  let kf_Q := cf.k_Q * cf.f_Q
  let kf_U := cf.k_U * cf.f_U
  let kf_V := cf.k_V * cf.f_V
  let kf_sum := kf_Q + kf_U + kf_V
  let muS_1 := mu * S_1
  let k_I1 := 1 + cf.k_I
  let k_I2 := k_I1 * k_I1
  let det := k_I1 ^ 4 + k_I1 ^ 2 * (f_Q2 + f_U2 + f_V2 - cf.k_Q * cf.k_Q - cf.k_U * cf.k_U - cf.k_V * cf.k_V) - kf_sum ^ 2
  let det1 := 1 / det
  let mult := muS_1 * det1
  { I := S_0 + muS_1 - muS_1 * (1 - k_I1 * det1 * (k_I2 + f_Q2 + f_U2 + f_V2))
    Q := -mult * (k_I2 * cf.k_Q - k_I1 * (cf.k_U * cf.f_V - cf.k_V * cf.f_U) + cf.f_Q * kf_sum)
    U := -mult * (k_I2 * cf.k_U - k_I1 * (cf.k_V * cf.f_Q - cf.k_Q * cf.f_V) + cf.f_U * kf_sum)
    V := mult * (k_I2 * cf.k_V + cf.f_V * kf_sum) }

/-- The transfer-equation determinant exactly as the specification
writes it, in terms of the seven coefficients. -/
def me_det (cf : Coeffs F) : F :=
  (1 + cf.k_I) ^ 4
    + (1 + cf.k_I) ^ 2 * (cf.f_Q ^ 2 + cf.f_U ^ 2 + cf.f_V ^ 2 - cf.k_Q ^ 2 - cf.k_U ^ 2 - cf.k_V ^ 2)
    - (cf.k_Q * cf.f_Q + cf.k_U * cf.f_U + cf.k_V * cf.f_V) ^ 2

/-- The closed-form ME solution exactly as the specification states it
(spec section 4.3), for comparison with `comp_numba`; the coefficient
pipeline is the same, only the final I, Q, U, V formulas are transcribed
from the spec text. -/
def spec_comp (env : Env F) (mu H1 H2 H3 L1 L2 L3 theta xi etta_0 S_0 S_1 : F) : Stokes F :=
  let cf := me_coeffs env H1 H2 H3 L1 L2 L3 theta xi etta_0
  let kf_sum := cf.k_Q * cf.f_Q + cf.k_U * cf.f_U + cf.k_V * cf.f_V
  let det := me_det cf
  { I := S_0 + mu * S_1 * (1 - (1 + cf.k_I) / det * ((1 + cf.k_I) ^ 2 + cf.f_Q ^ 2 + cf.f_U ^ 2 + cf.f_V ^ 2))
    Q := -(mu * S_1 / det) * ((1 + cf.k_I) ^ 2 * cf.k_Q - (1 + cf.k_I) * (cf.k_U * cf.f_V - cf.k_V * cf.f_U) + cf.f_Q * kf_sum)
    U := -(mu * S_1 / det) * ((1 + cf.k_I) ^ 2 * cf.k_U - (1 + cf.k_I) * (cf.k_V * cf.f_Q - cf.k_Q * cf.f_V) + cf.f_U * kf_sum)
    V := mu * S_1 / det * ((1 + cf.k_I) ^ 2 * cf.k_V + cf.f_V * kf_sum) }

/-- The nine derived per-sample quantities returned by
`_prepare_base_model_parameters`. -/
structure Derived (F : Type) where
  B : F
  theta : F
  xi : F
  D : F
  gamma : F
  etta_0 : F
  S_0 : F
  S_1 : F
  Dop_shift : F

/-- Reading column `j` of a row, with the convention that columns beyond
the row's width are never read by a guarded computation (the guards
`rowsOk`/`me_ok` mirror numpy's `IndexError`). -/
def rowFun (r : List F) (j : ℕ) : F := r.getD j 0

/-- Every row of the batch has at least `need` columns: exactly the
condition under which numpy column accesses `params[:, j]`, `j < need`,
succeed. -/
def rowsOk (params : List (List F)) (need : ℕ) : Bool :=
  params.all fun r => decide (need ≤ r.length)

/-- `_prepare_base_model_parameters` (lines 225-263), per sample: the
"full" (magnetic) parameter derivation.  `cont` is computed from the raw
batch before the in-place normalization, so both `S_0` and `S_1` are
divided by the original continuum. -/
def prepare_base_model_parameters (env : Env F) (line_vec : F × F × F) (norm : Bool)
    (p : ℕ → F) : Derived F :=
  let wl0 := line_vec.1 * (1 / 10 ^ 8)
  let mu := line_vec.2.2
  let cont := p 6 + mu * p 7
  { B := p 0
    theta := p 1 / 180 * env.pi
    xi := p 2 / 180 * env.pi
    D := p 3 * (1 / 10 ^ 11)
    gamma := p 4
    etta_0 := p 5
    S_0 := if norm then p 6 / cont else p 6
    S_1 := if norm then p 7 / cont else p 7
    Dop_shift := p 8 * 10 ^ 5 / c * wl0 }

/-- The row rewriting performed by `_prepare_zero_model_parameters`
(lines 266-281): field strength (column 0) forced to zero and the
stray-light Doppler shift (column 10) substituted for the Doppler shift
(column 8). -/
def zeroRow (p : ℕ → F) : ℕ → F :=
  fun j => if j = 0 then 0 else if j = 8 then p 10 else p j

/-- `_prepare_zero_model_parameters`: the "zero-field/stray-light"
derivation is the full derivation of the rewritten row. -/
def prepare_zero_model_parameters (env : Env F) (line_vec : F × F × F) (norm : Bool)
    (p : ℕ → F) : Derived F :=
  prepare_base_model_parameters env line_vec norm (zeroRow p)

/-- `_compute_spectrum` (lines 284-324), per sample and wavelength
point: the three Faddeeva evaluations (unshifted and Zeeman
blue/red-shifted) feeding `_comp_numba`. -/
def compute_spectrum (env : Env F) (d : Derived F) (line_arg : ℕ → F)
    (line_vec : F × F × F) : ℕ → Stokes F :=
  fun w =>
    let wl0 := line_vec.1 * (1 / 10 ^ 8)
    let g := line_vec.2.1
    let mu := line_vec.2.2
    let x := line_arg w * (1 / 10 ^ 11)
    let v := (x - d.Dop_shift) / d.D
    let a := d.gamma
    let v_b := d.B * wl0 * wl0 * el_c / (4 * env.pi * mass * c * c * d.D)
    let H1 := env.wofzRe v a
    let L1 := env.wofzIm v a
    let H2 := env.wofzRe (v - g * v_b) a
    let L2 := env.wofzIm (v - g * v_b) a
    let H3 := env.wofzRe (v + g * v_b) a
    let L3 := env.wofzIm (v + g * v_b) a
    comp_numba env mu H1 H2 H3 L1 L2 L3 d.theta d.xi d.etta_0 d.S_0 d.S_1

/-- `generate_noise` (lines 198-222): the additive Gaussian noise, with
the standard-normal draws supplied explicitly.  The per-sample continuum
`cont = params[:, 6] + mu * params[:, 7]` is read from the raw batch. -/
def generate_noise (params : List (List F)) (levels : Fin 4 → F) (mu : F) (norm : Bool)
    (draw : ℕ → ℕ → Fin 4 → F) : ℕ → ℕ → Fin 4 → F :=
  fun n w k =>
    let p := rowFun (params.getD n [])
    let cont := p 6 + mu * p 7
    let noise_level := if norm then levels k / cont else levels k
    noise_level * draw n w k

/-- The columns `me_model` actually reads exist in every row: columns
0-8 always (parameter derivation and, when noise is on, the noise
continuum columns 6-7), and columns 9-10 when filling-factor blending is
enabled. -/
def me_ok (params : List (List F)) (with_ff : Bool) : Bool :=
  rowsOk params 9 && (!with_ff || rowsOk params 11)

/-- The value computed by `me_model` (lines 155-195) when all column
accesses succeed: full-policy spectrum, optional filling-factor blend
with the zero-policy spectrum, optional additive noise. -/
def me_model_core (env : Env F) (params : List (List F)) (line_arg : ℕ → F)
    (line_vec : F × F × F) (with_ff norm with_noise : Bool)
    (draw : ℕ → ℕ → Fin 4 → F) : ℕ → ℕ → Fin 4 → F :=
  fun n w k =>
    let p := rowFun (params.getD n [])
    let spectrum := compute_spectrum env (prepare_base_model_parameters env line_vec norm p) line_arg line_vec
    let quiet :=
      if with_ff then
        let zero_spectrum := compute_spectrum env (prepare_zero_model_parameters env line_vec norm p) line_arg line_vec
        p 9 * (spectrum w).comp k + (1 - p 9) * (zero_spectrum w).comp k
      else (spectrum w).comp k
    if with_noise then
      quiet + generate_noise params absolute_noise_levels line_vec.2.2 norm draw n w k
    else quiet

/-- `me_model`: `none` models the `IndexError` raised when a column the
call needs is missing; otherwise the computed spectrum. -/
def me_model (env : Env F) (params : List (List F)) (line_arg : ℕ → F)
    (line_vec : F × F × F) (with_ff norm with_noise : Bool)
    (draw : ℕ → ℕ → Fin 4 → F) : Option (ℕ → ℕ → Fin 4 → F) :=
  if me_ok params with_ff then
    some (me_model_core env params line_arg line_vec with_ff norm with_noise draw)
  else none

/-- The fixed Hinode line descriptor `(6302.5, 2.5, 1)`. -/
def line_vector : F × F × F := (63025 / 10, 5 / 2, 1)

/-- `np.linspace(6302.0692255, 6303.2544205, 56)`. -/
def linspace56 (i : ℕ) : F :=
  63020692255 / 10 ^ 7 + (i : F) * ((63032544205 / 10 ^ 7 - 63020692255 / 10 ^ 7) / 55)

/-- The fixed wavelength grid
`1000 * (np.linspace(6302.0692255, 6303.2544205, 56) - 6302.5)`. -/
def line_arg_grid (i : ℕ) : F := 1000 * (linspace56 i - 63025 / 10)

/-- The per-sample values of one row of the output array (the 56
wavelength points times 4 Stokes components of sample `n`). -/
def rowValues (lines : ℕ → ℕ → Fin 4 → F) (n W : ℕ) : List F :=
  (List.range W).foldr
    (fun w acc => lines n w 0 :: lines n w 1 :: lines n w 2 :: lines n w 3 :: acc) []

/-- `np.amax` over row `n` of the output array (over `W` wavelength
points and the 4 Stokes components). -/
def amaxRow (lines : ℕ → ℕ → Fin 4 → F) (n W : ℕ) : F :=
  (rowValues lines n W).foldl max (lines n 0 0)

/-- The `HinodeME` wrapper object: one parameter vector plus the mutable
`cont` field. -/
structure HinodeME (F : Type) where
  param_vector : List F
  cont : F

/-- `HinodeME.__init__` (lines 30-56): asserts exactly 11 parameters,
stores the vector and `cont = param_vector[6] + line_vector[2] *
param_vector[7]`. -/
def HinodeME.init (p : List F) : Option (HinodeME F) :=
  if p.length = 11 then
    some { param_vector := p
           cont := p.getD 6 0 + (line_vector (F := F)).2.2 * p.getD 7 0 }
  else none

/-- `HinodeME.from_parameters_base` (lines 58-63): asserts
`0 <= idx < parameters_base.shape[0]`, then builds the instance from row
`idx`. -/
def HinodeME.from_parameters_base (idx : ℤ) (parameters_base : List (List F)) :
    Option (HinodeME F) :=
  if 0 ≤ idx ∧ idx < parameters_base.length then
    HinodeME.init (parameters_base.getD idx.toNat [])
  else none

/-- The fixed parameter-index permutation used by `from_refer`. -/
def param_list : List ℕ := [1, 2, 3, 6, 8, 7, 9, 10, 5, 12, 13]

/-- `HinodeME.from_refer` (lines 65-73), with the guard transcribed
exactly as written in the source: the first assert checks
`idx_0 >= 0 and idx_1 < 512`, the second `idx_1 >= 0 and idx_1 < 873`.
`refer i a b` abstracts `refer[i].data[a, b]`. -/
def HinodeME.from_refer (idx_0 idx_1 : ℤ) (refer : ℕ → ℤ → ℤ → F) :
    Option (HinodeME F) :=
  if (0 ≤ idx_0 ∧ idx_1 < 512) ∧ (0 ≤ idx_1 ∧ idx_1 < 873) then
    HinodeME.init (param_list.map fun i => refer i idx_0 idx_1)
  else none

/-- `HinodeME.compute_spectrum` (lines 75-88): runs `me_model` on the
single stored vector (with the default `norm=True`), rescales the stored
`cont` by `np.amax(lines)` (the maximum over the whole `1 x 56 x 4`
output, i.e. over sample 0), and returns the spectrum together with the
updated instance. -/
def HinodeME.compute_spectrum (env : Env F) (m : HinodeME F) (with_ff with_noise : Bool)
    (draw : ℕ → ℕ → Fin 4 → F) : Option ((ℕ → ℕ → Fin 4 → F) × HinodeME F) :=
  (me_model env [m.param_vector] line_arg_grid line_vector with_ff true with_noise draw).map
    fun lines =>
      (lines, { param_vector := m.param_vector, cont := amaxRow lines 0 56 * m.cont })

/-- The `BatchHinodeME` wrapper object: a parameter batch plus the
per-sample `cont` vector. -/
structure BatchHinodeME (F : Type) where
  param_vector : List (List F)
  cont : ℕ → F

/-- `BatchHinodeME.__init__` (lines 100-125): asserts the batch has
exactly 11 columns, stores it and the per-sample continuum. -/
def BatchHinodeME.init (ps : List (List F)) : Option (BatchHinodeME F) :=
  if ps.all (fun r => decide (r.length = 11)) then
    some { param_vector := ps
           cont := fun n =>
             (ps.getD n []).getD 6 0 + (line_vector (F := F)).2.2 * (ps.getD n []).getD 7 0 }
  else none

/-- `BatchHinodeME.compute_spectrum` (lines 139-152): runs `me_model` on
the stored batch and rescales each sample's `cont` by the maximum of
that sample's 224 output values
(`np.amax(lines.reshape(-1, 224), axis=1)`). -/
def BatchHinodeME.compute_spectrum (env : Env F) (m : BatchHinodeME F)
    (with_ff with_noise : Bool) (draw : ℕ → ℕ → Fin 4 → F) :
    Option ((ℕ → ℕ → Fin 4 → F) × BatchHinodeME F) :=
  (me_model env m.param_vector line_arg_grid line_vector with_ff true with_noise draw).map
    fun lines =>
      (lines, { param_vector := m.param_vector
                cont := fun n => amaxRow lines n 56 * m.cont n })

/-- Setting column `j` of every row (used to state the filling-factor
and unused-column claims without auxiliary hypotheses). -/
def setCol (params : List (List F)) (j : ℕ) (v : F) : List (List F) :=
  params.map fun r => r.set j v

/-- A concrete environment over `ℚ` for evaluating the embedding at
explicit inputs (the claims are identities holding for any environment,
so any interpretation serves as a test point). -/
def qEnv : Env ℚ :=
  { sin := fun _ => 0
    cos := fun _ => 0
    pi := 3
    sqrtPi := 1
    wofzRe := fun _ _ => 0
    wofzIm := fun _ _ => 0 }

/-- A concrete noise-draw function over `ℚ`. -/
def qDraw : ℕ → ℕ → Fin 4 → ℚ := fun _ _ _ => 1

/-- A concrete wavelength grid over `ℚ`. -/
def qGrid : ℕ → ℚ := fun i => (i : ℚ)

/-- A concrete parameter-map collaborator for `from_refer`. -/
def qRefer : ℕ → ℤ → ℤ → ℚ := fun _ _ _ => 0

/-- An 11-column sample with zero field strength. -/
def qRow0 : List ℚ := [0, 30, 45, 40, 1, 20, 3, 1, 2, 1, 0]

/-- A generic 11-column sample. -/
def qRow1 : List ℚ := [1500, 30, 45, 40, 1, 20, 3, 1, 2, 2, 3]

/-- `qRow1` with different filling factor and stray shift (columns 9
and 10). -/
def qRow2 : List ℚ := [1500, 30, 45, 40, 1, 20, 3, 1, 2, 5, 7]

/-- The first nine columns of `qRow1`. -/
def qRow9 : List ℚ := [1500, 30, 45, 40, 1, 20, 3, 1, 2]

/-- A 12-column sample. -/
def qRow12 : List ℚ := [1500, 30, 45, 40, 1, 20, 3, 1, 2, 2, 3, 99]

/-- A concrete `HinodeME` instance over `ℚ`. -/
def qME : HinodeME ℚ := { param_vector := qRow1, cont := 5 }

/-- A concrete `BatchHinodeME` instance over `ℚ`. -/
def qBatchME : BatchHinodeME ℚ := { param_vector := [qRow1, qRow2], cont := fun _ => 1 }

/-- A concrete replacement `cont` vector over `ℚ`. -/
def qContVec : ℕ → ℚ := fun _ => 7

/-! ## Helper lemmas -/

lemma rowsOk_iff (params : List (List F)) (need : ℕ) :
    rowsOk params need = true ↔ ∀ r ∈ params, need ≤ r.length := by
  simp [rowsOk, List.all_eq_true]

lemma me_ok_of_all11 (params : List (List F)) (wff : Bool)
    (h : ∀ r ∈ params, r.length = 11) : me_ok params wff = true := by
  have h9 : rowsOk params 9 = true := (rowsOk_iff _ _).2 fun r hr => by rw [h r hr]; omega
  have h11 : rowsOk params 11 = true := (rowsOk_iff _ _).2 fun r hr => le_of_eq (h r hr).symm
  simp [me_ok, h9, h11]

lemma prepare_base_congr (env : Env F) (lv : F × F × F) (norm : Bool) (p q : ℕ → F)
    (h : ∀ j, j < 9 → p j = q j) :
    prepare_base_model_parameters env lv norm p = prepare_base_model_parameters env lv norm q := by
  simp only [prepare_base_model_parameters]
  rw [h 0 (by omega), h 1 (by omega), h 2 (by omega), h 3 (by omega), h 4 (by omega),
    h 5 (by omega), h 6 (by omega), h 7 (by omega), h 8 (by omega)]

lemma me_coeffs_equal_profiles (env : Env F) (H L theta xi etta_0 : F) :
    (me_coeffs env H H H L L L theta xi etta_0).k_Q = 0 ∧
    (me_coeffs env H H H L L L theta xi etta_0).k_U = 0 ∧
    (me_coeffs env H H H L L L theta xi etta_0).k_V = 0 ∧
    (me_coeffs env H H H L L L theta xi etta_0).f_Q = 0 ∧
    (me_coeffs env H H H L L L theta xi etta_0).f_U = 0 ∧
    (me_coeffs env H H H L L L theta xi etta_0).f_V = 0 := by
  refine ⟨?_, ?_, ?_, ?_, ?_, ?_⟩ <;>
    (simp only [me_coeffs]; ring)

lemma comp_numba_zero_field (env : Env F) (mu H L theta xi etta_0 S_0 S_1 : F) :
    (comp_numba env mu H H H L L L theta xi etta_0 S_0 S_1).Q = 0 ∧
    (comp_numba env mu H H H L L L theta xi etta_0 S_0 S_1).U = 0 ∧
    (comp_numba env mu H H H L L L theta xi etta_0 S_0 S_1).V = 0 := by
  obtain ⟨h1, h2, h3, h4, h5, h6⟩ := me_coeffs_equal_profiles env H L theta xi etta_0
  refine ⟨?_, ?_, ?_⟩ <;>
    (simp only [comp_numba, h1, h2, h3, h4, h5, h6]; ring)

lemma compute_spectrum_zero_field (env : Env F) (d : Derived F) (hB : d.B = 0)
    (la : ℕ → F) (lv : F × F × F) (w : ℕ) (k : Fin 4) (hk : k ≠ 0) :
    (compute_spectrum env d la lv w).comp k = 0 := by
  simp only [compute_spectrum, hB, zero_mul, mul_zero, sub_zero, add_zero, zero_div]
  rcases k with ⟨kv, hkv⟩
  interval_cases kv
  · exact absurd (Fin.ext rfl) hk
  · simpa [Stokes.comp] using (comp_numba_zero_field env _ _ _ _ _ _ _ _).1
  · simpa [Stokes.comp] using (comp_numba_zero_field env _ _ _ _ _ _ _ _).2.1
  · simpa [Stokes.comp] using (comp_numba_zero_field env _ _ _ _ _ _ _ _).2.2

lemma rowFun_set_ne (r : List F) (i j : ℕ) (v : F) (h : i ≠ j) :
    rowFun (r.set i v) j = rowFun r j := by
  simp [rowFun, List.getD_eq_getElem?_getD, List.getElem?_set_ne h]

lemma rowFun_set_self (r : List F) (i : ℕ) (v : F) (h : i < r.length) :
    rowFun (r.set i v) i = v := by
  simp [rowFun, List.getD_eq_getElem?_getD, List.getElem?_set_self, h]

lemma setCol_getD (params : List (List F)) (j : ℕ) (v : F) (n : ℕ) :
    (setCol params j v).getD n [] = (params.getD n []).set j v := by
  simp only [setCol, List.getD_eq_getElem?_getD, List.getElem?_map]
  cases h : params[n]? <;> simp

lemma getD_length_of_rowsOk (params : List (List F)) (need : ℕ)
    (h : rowsOk params need = true) (n : ℕ) (hn : n < params.length) :
    need ≤ (params.getD n []).length := by
  refine (rowsOk_iff params need).1 h _ ?_
  rw [List.getD_eq_getElem _ _ hn]
  exact List.getElem_mem hn

lemma me_ok_iff (params : List (List F)) (wff : Bool) :
    me_ok params wff = true ↔
      (∀ r ∈ params, 9 ≤ r.length) ∧ (wff = true → ∀ r ∈ params, 11 ≤ r.length) := by
  cases wff <;>
    simp [me_ok, rowsOk_iff]

lemma me_model_isSome (env : Env F) (params : List (List F)) (la : ℕ → F)
    (lv : F × F × F) (wff norm wn : Bool) (draw : ℕ → ℕ → Fin 4 → F) :
    (me_model env params la lv wff norm wn draw).isSome = me_ok params wff := by
  simp only [me_model]
  split <;> simp_all

lemma prepare_zero_nil (env : Env F) (lv : F × F × F) (norm : Bool) :
    prepare_zero_model_parameters env lv norm (rowFun ([] : List F))
      = prepare_base_model_parameters env lv norm (rowFun ([] : List F)) := by
  apply prepare_base_congr
  intro j hj
  simp [zeroRow, rowFun]

lemma prepare_zero_set9 (env : Env F) (lv : F × F × F) (norm : Bool) (r : List F) (v : F) :
    prepare_zero_model_parameters env lv norm (rowFun (r.set 9 v))
      = prepare_zero_model_parameters env lv norm (rowFun r) := by
  apply prepare_base_congr
  intro j hj
  simp only [zeroRow]
  rcases eq_or_ne j 0 with rfl | hj0
  · simp
  · rcases eq_or_ne j 8 with rfl | hj8
    · simp [rowFun_set_ne r 9 10 v (by omega)]
    · simp [hj0, hj8, rowFun_set_ne r 9 j v (by omega)]

lemma me_model_core_ff_nonoise (env : Env F) (params : List (List F)) (la : ℕ → F)
    (lv : F × F × F) (norm : Bool) (draw : ℕ → ℕ → Fin 4 → F) (n w : ℕ) (k : Fin 4) :
    me_model_core env params la lv true norm false draw n w k
      = rowFun (params.getD n []) 9
          * (compute_spectrum env (prepare_base_model_parameters env lv norm
              (rowFun (params.getD n []))) la lv w).comp k
        + (1 - rowFun (params.getD n []) 9)
          * (compute_spectrum env (prepare_zero_model_parameters env lv norm
              (rowFun (params.getD n []))) la lv w).comp k := rfl

lemma me_model_core_noff_nonoise (env : Env F) (params : List (List F)) (la : ℕ → F)
    (lv : F × F × F) (norm : Bool) (draw : ℕ → ℕ → Fin 4 → F) (n w : ℕ) (k : Fin 4) :
    me_model_core env params la lv false norm false draw n w k
      = (compute_spectrum env (prepare_base_model_parameters env lv norm
          (rowFun (params.getD n []))) la lv w).comp k := rfl

/-! ## Claims -/

/-- Claim C1 (amended): for every input of the radiative-transfer
kernel, the Q, U, V components equal the specification's closed-form
expressions, and the I component equals
`S0 + mu*S1*(1+k_I)*((1+k_I)^2 + f_Q^2+f_U^2+f_V^2)/det` — the
specification's I formula without its extra `1 - ...` wrapper. -/
theorem C1_kernel_closed_form (env : Env F)
    (mu H1 H2 H3 L1 L2 L3 theta xi etta_0 S_0 S_1 : F) :
    (comp_numba env mu H1 H2 H3 L1 L2 L3 theta xi etta_0 S_0 S_1).I
        = S_0 + mu * S_1
            * ((1 + (me_coeffs env H1 H2 H3 L1 L2 L3 theta xi etta_0).k_I)
              * ((1 + (me_coeffs env H1 H2 H3 L1 L2 L3 theta xi etta_0).k_I) ^ 2
                + (me_coeffs env H1 H2 H3 L1 L2 L3 theta xi etta_0).f_Q ^ 2
                + (me_coeffs env H1 H2 H3 L1 L2 L3 theta xi etta_0).f_U ^ 2
                + (me_coeffs env H1 H2 H3 L1 L2 L3 theta xi etta_0).f_V ^ 2))
            / me_det (me_coeffs env H1 H2 H3 L1 L2 L3 theta xi etta_0)
    ∧ (comp_numba env mu H1 H2 H3 L1 L2 L3 theta xi etta_0 S_0 S_1).Q
        = (spec_comp env mu H1 H2 H3 L1 L2 L3 theta xi etta_0 S_0 S_1).Q
    ∧ (comp_numba env mu H1 H2 H3 L1 L2 L3 theta xi etta_0 S_0 S_1).U
        = (spec_comp env mu H1 H2 H3 L1 L2 L3 theta xi etta_0 S_0 S_1).U
    ∧ (comp_numba env mu H1 H2 H3 L1 L2 L3 theta xi etta_0 S_0 S_1).V
        = (spec_comp env mu H1 H2 H3 L1 L2 L3 theta xi etta_0 S_0 S_1).V := by
  refine ⟨?_, ?_, ?_, ?_⟩ <;>
    (simp only [comp_numba, spec_comp, me_det]; ring)

/-- Claim C1, counterexample to the spec's I formula as stated: with all
profile components zero and `S_0 = 0, S_1 = 1, mu = 1`, the kernel
returns the continuum `S_0 + mu*S_1 = 1`, while the spec's formula
`S0 + mu*S1*(1 - (1+k_I)/det * ((1+k_I)^2 + ...))` gives `0`. -/
theorem C1_spec_I_counterexample :
    (comp_numba qEnv 1 0 0 0 0 0 0 0 0 0 0 1).I
      ≠ (spec_comp qEnv 1 0 0 0 0 0 0 0 0 0 0 1).I := by
  simp only [comp_numba, spec_comp, me_coeffs, me_det, qEnv]
  norm_num

/-- Claim C4: the zero/stray parameter derivation equals the full
derivation applied to the row with field strength forced to zero and the
stray-light Doppler shift (column 10) substituted for the Doppler shift
(column 8); inclination, azimuth, Doppler width, damping, line strength,
S0 and S1 are identical to the full policy's. -/
theorem C4_zero_policy_derivation (env : Env F) (lv : F × F × F) (norm : Bool) (p : ℕ → F) :
    prepare_zero_model_parameters env lv norm p
        = prepare_base_model_parameters env lv norm
            (fun j => if j = 0 then 0 else if j = 8 then p 10 else p j)
    ∧ (prepare_zero_model_parameters env lv norm p).theta
        = (prepare_base_model_parameters env lv norm p).theta
    ∧ (prepare_zero_model_parameters env lv norm p).xi
        = (prepare_base_model_parameters env lv norm p).xi
    ∧ (prepare_zero_model_parameters env lv norm p).D
        = (prepare_base_model_parameters env lv norm p).D
    ∧ (prepare_zero_model_parameters env lv norm p).gamma
        = (prepare_base_model_parameters env lv norm p).gamma
    ∧ (prepare_zero_model_parameters env lv norm p).etta_0
        = (prepare_base_model_parameters env lv norm p).etta_0
    ∧ (prepare_zero_model_parameters env lv norm p).S_0
        = (prepare_base_model_parameters env lv norm p).S_0
    ∧ (prepare_zero_model_parameters env lv norm p).S_1
        = (prepare_base_model_parameters env lv norm p).S_1 :=
  ⟨rfl, rfl, rfl, rfl, rfl, rfl, rfl, rfl⟩

/-- Claim C5: the scale multiplying the standard-normal draw at sample
`n`, wavelength `w`, component `k` is `levels k / (S0 + mu*S1)` (S0, S1
raw from the batch) when normalization is requested and `levels k`
otherwise — independent of `w`; and `me_model` adds exactly this noise
(with the default levels and `mu = line_vec[2]`) on top of the noiseless
spectrum. -/
theorem C5_noise_scale (env : Env F) (params : List (List F)) (levels : Fin 4 → F)
    (la : ℕ → F) (lv : F × F × F) (wff norm : Bool) (draw : ℕ → ℕ → Fin 4 → F)
    (n w : ℕ) (k : Fin 4) :
    generate_noise params levels lv.2.2 norm draw n w k
        = (if norm then
            levels k / (rowFun (params.getD n []) 6 + lv.2.2 * rowFun (params.getD n []) 7)
          else levels k) * draw n w k
    ∧ me_model_core env params la lv wff norm true draw n w k
        = me_model_core env params la lv wff norm false draw n w k
          + generate_noise params absolute_noise_levels lv.2.2 norm draw n w k :=
  ⟨rfl, rfl⟩

/-- Claim C6: with noise disabled, `me_model` is deterministic — its
result does not depend on the random-draw stream, the only stateful
input, so repeated calls with identical inputs return identical
outputs. -/
theorem C6_deterministic_without_noise (env : Env F) (params : List (List F)) (la : ℕ → F)
    (lv : F × F × F) (wff norm : Bool) (draw1 draw2 : ℕ → ℕ → Fin 4 → F) :
    me_model env params la lv wff norm false draw1
      = me_model env params la lv wff norm false draw2 := rfl

/-- Claim C2: for every sample with field strength B = 0 (column 0) and
any inclination and azimuth, the Q, U and V components of the
synthesized spectrum with noise disabled are exactly zero at every
wavelength point, under either blending policy. -/
theorem C2_zero_field_no_polarization (env : Env F) (params : List (List F)) (la : ℕ → F)
    (lv : F × F × F) (wff norm : Bool) (draw : ℕ → ℕ → Fin 4 → F) (n w : ℕ) (k : Fin 4)
    (hok : me_ok params wff = true)
    (hB : rowFun (params.getD n []) 0 = 0) (hk : k ≠ 0) :
    me_model env params la lv wff norm false draw
        = some (me_model_core env params la lv wff norm false draw)
    ∧ me_model_core env params la lv wff norm false draw n w k = 0 := by
  constructor
  · simp [me_model, hok]
  · have hmag : (compute_spectrum env
        (prepare_base_model_parameters env lv norm (rowFun (params.getD n []))) la lv w).comp k
          = 0 :=
      compute_spectrum_zero_field env _ hB la lv w k hk
    have hzero : (compute_spectrum env
        (prepare_zero_model_parameters env lv norm (rowFun (params.getD n []))) la lv w).comp k
          = 0 :=
      compute_spectrum_zero_field env _ rfl la lv w k hk
    cases wff
    · rw [me_model_core_noff_nonoise]
      exact hmag
    · rw [me_model_core_ff_nonoise, hmag, hzero]
      ring

/-- Witness for C2 at a concrete zero-field sample. -/
theorem C2_zero_field_no_polarization_witness :
    me_model qEnv [qRow0] qGrid line_vector true true false qDraw
        = some (me_model_core qEnv [qRow0] qGrid line_vector true true false qDraw)
    ∧ me_model_core qEnv [qRow0] qGrid line_vector true true false qDraw 0 0 1 = 0 :=
  C2_zero_field_no_polarization qEnv [qRow0] qGrid line_vector true true qDraw 0 0 1
    (by decide) (by decide) (by decide)

/-- Claim C3: with blending enabled the output is
`ff * magnetic + (1 - ff) * stray` per sample; with the filling factor
set to 1 in every sample it equals the magnetic-only (blending-disabled)
output; with it set to 0 it equals the zero-field/stray-only kernel
output; with blending disabled the magnetic spectrum is returned
unchanged. -/
theorem C3_filling_factor_blend (env : Env F) (params : List (List F)) (la : ℕ → F)
    (lv : F × F × F) (norm : Bool) (draw : ℕ → ℕ → Fin 4 → F) (n w : ℕ) (k : Fin 4)
    (h11 : rowsOk params 11 = true) :
    me_model_core env params la lv true norm false draw n w k
        = rowFun (params.getD n []) 9
            * (compute_spectrum env (prepare_base_model_parameters env lv norm
                (rowFun (params.getD n []))) la lv w).comp k
          + (1 - rowFun (params.getD n []) 9)
            * (compute_spectrum env (prepare_zero_model_parameters env lv norm
                (rowFun (params.getD n []))) la lv w).comp k
    ∧ me_model_core env (setCol params 9 1) la lv true norm false draw n w k
        = me_model_core env (setCol params 9 1) la lv false norm false draw n w k
    ∧ me_model_core env (setCol params 9 0) la lv true norm false draw n w k
        = (compute_spectrum env (prepare_zero_model_parameters env lv norm
            (rowFun (params.getD n []))) la lv w).comp k
    ∧ me_model_core env params la lv false norm false draw n w k
        = (compute_spectrum env (prepare_base_model_parameters env lv norm
            (rowFun (params.getD n []))) la lv w).comp k := by
  refine ⟨rfl, ?_, ?_, rfl⟩
  · by_cases hn : n < params.length
    · have hlen : 11 ≤ (params.getD n []).length := getD_length_of_rowsOk params 11 h11 n hn
      have hff : rowFun ((params.getD n []).set 9 1) 9 = 1 :=
        rowFun_set_self _ 9 1 (by omega)
      rw [me_model_core_ff_nonoise, me_model_core_noff_nonoise, setCol_getD, hff]
      ring
    · have hget : params.getD n [] = [] := List.getD_eq_default _ _ (by omega)
      rw [me_model_core_ff_nonoise, me_model_core_noff_nonoise, setCol_getD, hget,
        List.set_nil, prepare_zero_nil]
      ring
  · by_cases hn : n < params.length
    · have hlen : 11 ≤ (params.getD n []).length := getD_length_of_rowsOk params 11 h11 n hn
      have hff : rowFun ((params.getD n []).set 9 0) 9 = 0 :=
        rowFun_set_self _ 9 0 (by omega)
      rw [me_model_core_ff_nonoise, setCol_getD, hff, prepare_zero_set9]
      ring
    · have hget : params.getD n [] = [] := List.getD_eq_default _ _ (by omega)
      rw [me_model_core_ff_nonoise, setCol_getD, hget, List.set_nil, prepare_zero_nil]
      ring

/-- Witness for C3 at a concrete 11-column batch. -/
theorem C3_filling_factor_blend_witness :
    me_model_core qEnv [qRow1] qGrid line_vector true true false qDraw 0 0 0
        = rowFun ([qRow1].getD 0 []) 9
            * (compute_spectrum qEnv (prepare_base_model_parameters qEnv line_vector true
                (rowFun ([qRow1].getD 0 []))) qGrid line_vector 0).comp 0
          + (1 - rowFun ([qRow1].getD 0 []) 9)
            * (compute_spectrum qEnv (prepare_zero_model_parameters qEnv line_vector true
                (rowFun ([qRow1].getD 0 []))) qGrid line_vector 0).comp 0
    ∧ me_model_core qEnv (setCol [qRow1] 9 1) qGrid line_vector true true false qDraw 0 0 0
        = me_model_core qEnv (setCol [qRow1] 9 1) qGrid line_vector false true false qDraw 0 0 0
    ∧ me_model_core qEnv (setCol [qRow1] 9 0) qGrid line_vector true true false qDraw 0 0 0
        = (compute_spectrum qEnv (prepare_zero_model_parameters qEnv line_vector true
            (rowFun ([qRow1].getD 0 []))) qGrid line_vector 0).comp 0
    ∧ me_model_core qEnv [qRow1] qGrid line_vector false true false qDraw 0 0 0
        = (compute_spectrum qEnv (prepare_base_model_parameters qEnv line_vector true
            (rowFun ([qRow1].getD 0 []))) qGrid line_vector 0).comp 0 :=
  C3_filling_factor_blend qEnv [qRow1] qGrid line_vector true qDraw 0 0 0 (by decide)

/-- Claim C7 (amended): the wrapper constructors fail fast on any batch
without exactly 11 columns, but the facade `me_model` performs no
column-count validation of its own: it succeeds exactly when the columns
it reads exist (columns 0-8 always, columns 9-10 additionally when
blending is enabled), so in particular it accepts batches with more than
11 columns. -/
theorem C7_shape_validation (p : List F) (ps : List (List F)) (env : Env F) (la : ℕ → F)
    (lv : F × F × F) (wff norm wn : Bool) (draw : ℕ → ℕ → Fin 4 → F) :
    ((HinodeME.init p).isSome = true ↔ p.length = 11)
    ∧ ((BatchHinodeME.init ps).isSome = true ↔ ∀ r ∈ ps, r.length = 11)
    ∧ ((me_model env ps la lv wff norm wn draw).isSome = true
        ↔ (∀ r ∈ ps, 9 ≤ r.length) ∧ (wff = true → ∀ r ∈ ps, 11 ≤ r.length)) := by
  refine ⟨?_, ?_, ?_⟩
  · by_cases h : p.length = 11 <;> simp [HinodeME.init, h]
  · have hs : (BatchHinodeME.init ps).isSome = ps.all (fun r => decide (r.length = 11)) := by
      simp only [BatchHinodeME.init]
      split <;> simp_all
    rw [hs, List.all_eq_true]
    simp
  · rw [me_model_isSome]
    exact me_ok_iff ps wff

/-- Witness for C7 at concrete batches. -/
theorem C7_shape_validation_witness :
    ((HinodeME.init qRow1).isSome = true ↔ qRow1.length = 11)
    ∧ ((BatchHinodeME.init [qRow12]).isSome = true ↔ ∀ r ∈ [qRow12], r.length = 11)
    ∧ ((me_model qEnv [qRow12] qGrid line_vector true true true qDraw).isSome = true
        ↔ (∀ r ∈ [qRow12], 9 ≤ r.length) ∧ (true = true → ∀ r ∈ [qRow12], 11 ≤ r.length)) :=
  C7_shape_validation qRow1 [qRow12] qEnv qGrid line_vector true true true qDraw

/-- Claim C7, counterexample: a 12-column batch does not have exactly 11
columns, yet `me_model` accepts it and synthesizes a spectrum (with
blending and noise enabled) instead of failing. -/
theorem C7_me_model_accepts_12_columns :
    (me_model qEnv [qRow12] qGrid line_vector true true true qDraw).isSome = true := by
  decide

/-- Claim C8: the `from_refer` guard as written checks `idx_1 < 512`
where its own error message and the 512 x 873 map shape demand
`idx_0 < 512`; hence the out-of-range index pair
`idx_0 = 600, idx_1 = 0` passes the guard and the constructor proceeds
to read the parameter maps instead of failing fast. -/
theorem C8_from_refer_guard_bug :
    (HinodeME.from_refer 600 0 qRefer).isSome = true := by
  decide

/-- Claim C9: after `compute_spectrum`, the stored `cont` equals the
maximum of the returned spectrum (over the whole output for `HinodeME`,
per sample row for `BatchHinodeME`) times the previously stored `cont`;
the returned spectrum itself does not depend on the stored `cont`. -/
theorem C9_cont_update (env : Env F) (m : HinodeME F) (b : BatchHinodeME F)
    (wff wn : Bool) (draw : ℕ → ℕ → Fin 4 → F) (c2 : F) (cb : ℕ → F)
    (hm : m.param_vector.length = 11)
    (hb : ∀ r ∈ b.param_vector, r.length = 11) :
    HinodeME.compute_spectrum env m wff wn draw
        = some (me_model_core env [m.param_vector] line_arg_grid line_vector wff true wn draw,
            { param_vector := m.param_vector
              cont := amaxRow
                (me_model_core env [m.param_vector] line_arg_grid line_vector wff true wn draw)
                0 56 * m.cont })
    ∧ (HinodeME.compute_spectrum env { param_vector := m.param_vector, cont := c2 }
          wff wn draw).map Prod.fst
        = some (me_model_core env [m.param_vector] line_arg_grid line_vector wff true wn draw)
    ∧ BatchHinodeME.compute_spectrum env b wff wn draw
        = some (me_model_core env b.param_vector line_arg_grid line_vector wff true wn draw,
            { param_vector := b.param_vector
              cont := fun n => amaxRow
                (me_model_core env b.param_vector line_arg_grid line_vector wff true wn draw)
                n 56 * b.cont n })
    ∧ (BatchHinodeME.compute_spectrum env { param_vector := b.param_vector, cont := cb }
          wff wn draw).map Prod.fst
        = some (me_model_core env b.param_vector line_arg_grid line_vector wff true wn draw) := by
  have hok1 : me_ok [m.param_vector] wff = true := by
    refine me_ok_of_all11 _ _ ?_
    intro r hr
    rw [List.mem_singleton] at hr
    subst hr
    exact hm
  have hok2 : me_ok b.param_vector wff = true := me_ok_of_all11 _ _ hb
  refine ⟨?_, ?_, ?_, ?_⟩ <;>
    simp [HinodeME.compute_spectrum, BatchHinodeME.compute_spectrum, me_model, hok1, hok2]

/-- Witness for C9 at concrete instances. -/
theorem C9_cont_update_witness :
    HinodeME.compute_spectrum qEnv qME true true qDraw
        = some (me_model_core qEnv [qME.param_vector] line_arg_grid line_vector true true true qDraw,
            { param_vector := qME.param_vector
              cont := amaxRow
                (me_model_core qEnv [qME.param_vector] line_arg_grid line_vector true true true qDraw)
                0 56 * qME.cont })
    ∧ (HinodeME.compute_spectrum qEnv { param_vector := qME.param_vector, cont := 7 }
          true true qDraw).map Prod.fst
        = some (me_model_core qEnv [qME.param_vector] line_arg_grid line_vector true true true qDraw)
    ∧ BatchHinodeME.compute_spectrum qEnv qBatchME true true qDraw
        = some (me_model_core qEnv qBatchME.param_vector line_arg_grid line_vector true true true qDraw,
            { param_vector := qBatchME.param_vector
              cont := fun n => amaxRow
                (me_model_core qEnv qBatchME.param_vector line_arg_grid line_vector true true true qDraw)
                n 56 * qBatchME.cont n })
    ∧ (BatchHinodeME.compute_spectrum qEnv { param_vector := qBatchME.param_vector, cont := qContVec }
          true true qDraw).map Prod.fst
        = some (me_model_core qEnv qBatchME.param_vector line_arg_grid line_vector true true true qDraw) :=
  C9_cont_update qEnv qME qBatchME true true qDraw 7 qContVec (by decide) (by decide)

/-- Claim C10: with blending and noise disabled, the output of
`me_model` depends only on columns 0-8 of each sample — two batches of
the same shape agreeing on columns 0-8 synthesize identically, whatever
their columns 9 and 10 hold — and a batch with only 9 columns is
accepted and synthesized without error. -/
theorem C10_unused_columns (env : Env F) (params params2 : List (List F)) (la : ℕ → F)
    (lv : F × F × F) (norm : Bool) (draw draw2 : ℕ → ℕ → Fin 4 → F) (n w : ℕ) (k : Fin 4)
    (h9 : rowsOk params 9 = true) (h9b : rowsOk params2 9 = true)
    (hlen : params2.length = params.length)
    (hagree : ∀ i, i < params.length → ∀ j, j < 9 →
      rowFun (params.getD i []) j = rowFun (params2.getD i []) j) :
    me_model env params la lv false norm false draw
        = some (me_model_core env params la lv false norm false draw)
    ∧ me_model_core env params la lv false norm false draw n w k
        = me_model_core env params2 la lv false norm false draw2 n w k := by
  constructor
  · simp [me_model, me_ok, h9]
  · have hrow : prepare_base_model_parameters env lv norm (rowFun (params.getD n []))
        = prepare_base_model_parameters env lv norm (rowFun (params2.getD n [])) := by
      by_cases hn : n < params.length
      · exact prepare_base_congr _ _ _ _ _ (hagree n hn)
      · rw [List.getD_eq_default _ _ (by omega), List.getD_eq_default _ _ (by omega)]
    rw [me_model_core_noff_nonoise, me_model_core_noff_nonoise, hrow]

/-- Witness for C10: a 9-column batch and an 11-column batch agreeing on
columns 0-8 synthesize identically, and the 9-column batch is
accepted. -/
theorem C10_unused_columns_witness :
    me_model qEnv [qRow9] qGrid line_vector false true false qDraw
        = some (me_model_core qEnv [qRow9] qGrid line_vector false true false qDraw)
    ∧ me_model_core qEnv [qRow9] qGrid line_vector false true false qDraw 0 0 0
        = me_model_core qEnv [qRow2] qGrid line_vector false true false qDraw 0 0 0 :=
  C10_unused_columns qEnv [qRow9] [qRow2] qGrid line_vector true qDraw qDraw 0 0 0
    (by decide) (by decide) (by decide) (by decide)

end ME
